import Mathlib

/-!
Verification development for the AT-AI support-ticket system.

The development shallowly embeds the two engines of the repository:
the ticket classification engine (`ai_classifier.py`) and the
retrieval engine (`knowledge_base.py`).  External collaborators that
are not part of the repository (the OpenAI completion and embedding
endpoints, Python's stdlib `json.loads`, `urllib.parse`) are modelled
as explicit oracle parameters, so every theorem quantifies over all of
their possible behaviours.  Machine floats are idealised as real
numbers; Python dicts are modelled as association lists whose lookup
takes the first binding.
-/

/-! ## JSON values (the results Python's `json.loads` can produce) -/

/-- A JSON value, as returned by `json.loads`.  Numbers are idealised
as integers; no claim depends on numeric JSON payloads. -/
inductive Json where
  | null : Json
  | bool (b : Bool) : Json
  | num (n : Int) : Json
  | str (s : String) : Json
  | arr (elems : List Json) : Json
  | obj (fields : List (String × Json)) : Json

/-- True exactly when the value is a JSON object (a Python dict);
calling `.get` on any other value raises `AttributeError` in Python. -/
def Json.isObj : Json → Bool
  | .obj _ => true
  | _ => false

/-- Python `dict.get k` on an association list: the first binding wins
(a real Python dict has unique keys, so this is exact there). -/
def dictGet : List (String × Json) → String → Option Json
  | [], _ => none
  | p :: t, k => if p.1 == k then some p.2 else dictGet t k

/-- Python `result = t.copy(); result.update(c)`.  Keys already in `t`
keep their position and receive `c`'s value; keys only in `c` are
appended in `c`'s order. -/
def dictUpdate (t c : List (String × Json)) : List (String × Json) :=
  (t.map (fun p => (p.1, (dictGet c p.1).getD p.2))) ++
    (c.filter (fun p => (dictGet t p.1).isNone))

/-! ## config.py -/

/-- `TOPIC_TAGS` from `config.py`. -/
def TOPIC_TAGS : List String :=
  ["How-to", "Product", "Connector", "Lineage", "API/SDK", "SSO",
   "Glossary", "Best practices", "Sensitive data"]

/-- `SENTIMENT_OPTIONS` from `config.py`. -/
def SENTIMENT_OPTIONS : List String :=
  ["Frustrated", "Curious", "Angry", "Neutral", "Positive"]

/-- `PRIORITY_LEVELS` from `config.py`. -/
def PRIORITY_LEVELS : List String :=
  ["P0 (High)", "P1 (Medium)", "P2 (Low)"]

/-! ## ai_classifier.py: response extraction

`_parse_classification` runs `re.search(r'\x7b.*\x7d', text, re.DOTALL)`.
With the greedy `.*` and DOTALL, the match (when one exists) starts at
the first `\x7b` that has some `\x7d` after it and extends to the last
`\x7d` of the whole text. -/

/-- The prefix of `cs` that ends at the last `\x7d` of `cs`; `none` when
`cs` contains no `\x7d`.  This is how the greedy `.*\x7d` tail of the
regex consumes text. -/
def takeToLastClose : List Char → Option (List Char)
  | [] => none
  | c :: cs =>
    match takeToLastClose cs with
    | some t => some (c :: t)
    | none => if c = '\x7d' then some [c] else none

/-- The span matched by `re.search(r'\x7b.*\x7d', text, re.DOTALL)` on the
character list of the response: from the first `\x7b` to the last `\x7d`
(which must come after it), or `none` when there is no match. -/
def extractJsonSpan (cs : List Char) : Option (List Char) :=
  match cs.dropWhile (fun c => c ≠ '\x7b') with
  | [] => none
  | c :: rest => (takeToLastClose rest).map (fun t => c :: t)

/-- `json_match.group()` of `_parse_classification`, as a string. -/
def extractBraces (s : String) : Option String :=
  (extractJsonSpan s.data).map String.mk

/-! ## ai_classifier.py: parsing and validation -/

/-- `_get_default_classification` from `ai_classifier.py`. -/
def defaultClassification : List (String × Json) :=
  [("topic", Json.str "Product"),
   ("sentiment", Json.str "Neutral"),
   ("priority", Json.str "P1 (Medium)"),
   ("reasoning", Json.str "Default classification due to parsing error")]

/-- Python `classification.get(k) in opts` for a list `opts` of strings:
true exactly when the field is present, is a string, and is one of the
options (a missing field gives `None`, which is in no string list; a
non-string value equals no string). -/
def fieldInList (fields : List (String × Json)) (k : String)
    (opts : List String) : Bool :=
  match dictGet fields k with
  | some (Json.str s) => opts.contains s
  | _ => false

/-- `_parse_classification` from `ai_classifier.py`.  `loads` is the
oracle for Python's `json.loads`: `none` models `JSONDecodeError`.
A parsed non-object makes `.get` raise `AttributeError`, which the
method catches, returning the default; a missing regex match or a
failed membership validation also return the default. -/
def parseClassification (loads : String → Option Json)
    (classificationText : String) : List (String × Json) :=
  match extractBraces classificationText with
  | some sub =>
    match loads sub with
    | some (Json.obj fields) =>
      if fieldInList fields "topic" TOPIC_TAGS &&
          fieldInList fields "sentiment" SENTIMENT_OPTIONS &&
          fieldInList fields "priority" PRIORITY_LEVELS then
        fields
      else
        defaultClassification
    | some _ => defaultClassification
    | none => defaultClassification
  | none => defaultClassification

/-- `_create_classification_prompt` from `ai_classifier.py` (the Python
f-string, with its `\x7b\x7b`/`\x7d\x7d` escapes rendered as literal braces). -/
def createClassificationPrompt (title description : String) : String :=
  "\nPlease classify the following customer support ticket for Atlan (a data catalog platform):\n\nTitle: "
    ++ title ++ "\nDescription: " ++ description ++
  "\n\nClassify this ticket according to the following criteria:\n\n1. TOPIC TAGS (choose the most relevant one):\n   - How-to: Questions about how to use features\n   - Product: General product questions or feature requests\n   - Connector: Issues with data source connectors (Snowflake, BigQuery, etc.)\n   - Lineage: Data lineage visualization or tracking issues\n   - API/SDK: Questions about API usage or SDK integration\n   - SSO: Single Sign-On authentication issues\n   - Glossary: Business glossary or metadata management\n   - Best practices: Questions about recommended practices\n   - Sensitive data: Data privacy, security, or compliance issues\n\n2. SENTIMENT (choose the most appropriate):\n   - Frustrated: Customer is experiencing issues and showing frustration\n   - Curious: Customer is asking questions to learn more\n   - Angry: Customer is clearly upset or angry\n   - Neutral: Customer is matter-of-fact, no strong emotion\n   - Positive: Customer is happy or expressing satisfaction\n\n3. PRIORITY (choose based on urgency and impact):\n   - P0 (High): Critical issues affecting business operations, security issues, or major bugs\n   - P1 (Medium): Important issues that need attention but not immediately critical\n   - P2 (Low): General questions, feature requests, or minor issues\n\nPlease respond in the following JSON format:\n\x7b\n    \"topic\": \"chosen_topic\",\n    \"sentiment\": \"chosen_sentiment\", \n    \"priority\": \"chosen_priority\",\n    \"reasoning\": \"brief explanation of your classification\"\n\x7d\n"

/-- Outcome of the chat-completion call in `classify_ticket`: the text
of `response.choices[0].message.content`, a `None` content (which makes
`re.search` raise `TypeError` inside the method's `try`), or a raised
API/network exception. -/
inductive CompletionResult where
  | ok (content : String) : CompletionResult
  | okNone : CompletionResult
  | err : CompletionResult

/-- `classify_ticket` from `ai_classifier.py`.  `api` is the completion
oracle, applied to the built prompt; any raised exception (including a
`None` content reaching `re.search`) is caught by the method's
`except Exception` and yields the default classification. -/
def classifyTicket (loads : String → Option Json)
    (api : String → CompletionResult) (title description : String) :
    List (String × Json) :=
  match api (createClassificationPrompt title description) with
  | CompletionResult.ok text => parseClassification loads text
  | CompletionResult.okNone => defaultClassification
  | CompletionResult.err => defaultClassification

/-- Python `str()` of a JSON value as interpolated into the f-string
prompt by `classify_bulk_tickets` via `ticket.get("title", "")`.  The
rendering of containers is abbreviated: the prompt only feeds the
completion oracle and no claim depends on its exact text. -/
def pyStr : Json → String
  | .null => "None"
  | .bool true => "True"
  | .bool false => "False"
  | .num n => toString n
  | .str s => s
  | .arr _ => "[...]"
  | .obj _ => "\x7b...\x7d"

/-- `ticket.get(k, "")` as interpolated into the prompt. -/
def ticketField (t : List (String × Json)) (k : String) : String :=
  match dictGet t k with
  | some v => pyStr v
  | none => ""

/-- `classify_bulk_tickets` from `ai_classifier.py`: classify each
ticket in order and merge the classification onto a copy of the ticket
(`ticket.copy()` followed by `.update(classification)`). -/
def classifyBulkTickets (loads : String → Option Json)
    (api : String → CompletionResult)
    (tickets : List (List (String × Json))) : List (List (String × Json)) :=
  tickets.map (fun ticket =>
    dictUpdate ticket
      (classifyTicket loads api (ticketField ticket "title")
        (ticketField ticket "description")))

/-! ## knowledge_base.py: the scraper's candidate-link collection -/

/-- `skip_patterns` of `_is_doc_page`. -/
def skipPatterns : List String :=
  [".pdf", ".zip", ".jpg", ".png", ".gif", "/api/", "/search"]

/-- Case-folding as applied by Python's `url.lower()` (the URLs in play
are ASCII). -/
def lowerStr (s : String) : String :=
  String.mk (s.data.map Char.toLower)

/-- Python's substring test `needle in hay` on character lists. -/
def containsSub (needle : List Char) : List Char → Bool
  | [] => needle.isEmpty
  | c :: t => needle.isPrefixOf (c :: t) || containsSub needle t

/-- `_is_doc_page` from `knowledge_base.py`.  `netloc` is the oracle
for `urlparse(·).netloc` (stdlib).  The URL must share the seed's
network authority and match none of the skip patterns, each tested as
a case-insensitive substring. -/
def isDocPage (netloc : String → String) (url baseUrl : String) : Bool :=
  if netloc url != netloc baseUrl then
    false
  else if skipPatterns.any (fun p => containsSub p.data (lowerStr url).data) then
    false
  else
    true

/-- The candidate-collection loop of `scrape_documentation`: for each
anchor `href` of the seed page in document order, resolve it with
`urljoin` (stdlib oracle) and append it to `doc_links` when it passes
`_is_doc_page`, is not in `visited_urls`, and fewer than `max_pages`
links are collected.  `visited_urls` is still empty throughout this
loop in the source — it is only populated later, while fetching — so
its membership test never rejects anything here. -/
def scrapeDocLinks (urljoin : String → String → String)
    (netloc : String → String) (baseUrl : String) (hrefs : List String)
    (maxPages : Nat) : List String :=
  let visitedUrls : List String := []
  hrefs.foldl (fun docLinks href =>
    let fullUrl := urljoin baseUrl href
    if isDocPage netloc fullUrl baseUrl && !visitedUrls.contains fullUrl &&
        decide (docLinks.length < maxPages) then
      docLinks ++ [fullUrl]
    else
      docLinks) []

/-! ## knowledge_base.py: cosine similarity and search

Machine floats are idealised as real numbers, so `_cosine_similarity`
(which takes a square root) is noncomputable; no claim needs to
evaluate it numerically beyond what the field axioms give. -/

/-- `np.dot` of two equal-length vectors. -/
def dotProd (v w : List ℝ) : ℝ :=
  (List.zipWith (fun a b => a * b) v w).sum

/-- `np.linalg.norm`: the Euclidean norm, `sqrt (dot v v)`. -/
noncomputable def norm2 (v : List ℝ) : ℝ :=
  Real.sqrt (dotProd v v)

/-- `_cosine_similarity` from `knowledge_base.py`: `0` when either norm
is zero, otherwise `dot / (norm1 * norm2)`. -/
noncomputable def cosineSimilarity (vec1 vec2 : List ℝ) : ℝ :=
  if norm2 vec1 = 0 ∨ norm2 vec2 = 0 then 0
  else dotProd vec1 vec2 / (norm2 vec1 * norm2 vec2)

/-- One value of `self.embeddings` (keyed by URL): the stored vector
with the document content and title. -/
structure EmbRec where
  embedding : List ℝ
  content : String
  title : String

/-- One entry of the `similarities` list built by
`search_relevant_content`. -/
structure RetrievalResult where
  url : String
  title : String
  content : String
  similarity : ℝ

/-- The descending-similarity order used by
`similarities.sort(key=lambda x: x['similarity'], reverse=True)`. -/
def simGe (a b : RetrievalResult) : Prop :=
  b.similarity ≤ a.similarity

noncomputable instance : DecidableRel simGe :=
  fun a b => inferInstanceAs (Decidable (b.similarity ≤ a.similarity))

instance : IsTotal RetrievalResult simGe :=
  ⟨fun a b => le_total b.similarity a.similarity⟩

instance : IsTrans RetrievalResult simGe :=
  ⟨fun _ _ _ h1 h2 => le_trans h2 h1⟩

/-- The `similarities` list of `search_relevant_content` before
sorting: one `RetrievalResult` per indexed document, in index order. -/
noncomputable def simResults (queryEmbedding : List ℝ)
    (embeddings : List (String × EmbRec)) : List RetrievalResult :=
  embeddings.map (fun p =>
    { url := p.1, title := p.2.title, content := p.2.content,
      similarity := cosineSimilarity queryEmbedding p.2.embedding })

/-- `search_relevant_content` from `knowledge_base.py`.  `queryResp` is
the embedding-API oracle for the query (`Except.error` models a raised
exception, caught by the method).  The second component counts how
many embedding-API calls the method performs, so "no call on the
empty-index path" is expressible.  Python's `list.sort` is stable;
`List.insertionSort` of a stable insertion is extensionally the same
descending stable sort. -/
noncomputable def searchRelevantContent (queryResp : Except Unit (List ℝ))
    (embeddings : List (String × EmbRec)) (topK : Nat) :
    List RetrievalResult × Nat :=
  if embeddings.isEmpty then
    ([], 0)
  else
    match queryResp with
    | Except.error _ => ([], 1)
    | Except.ok queryEmbedding =>
      ((List.insertionSort simGe (simResults queryEmbedding embeddings)).take topK,
        1)

/-! ## knowledge_base.py: answer generation -/

/-- The `answer`/`sources` record returned by `generate_answer`. -/
structure AnswerResult where
  answer : String
  sources : List String

/-- The fixed not-found answer of `generate_answer`. -/
def notFoundAnswer : String :=
  "I couldn\x27t find relevant information in the knowledge base to answer your question. Please contact our support team for assistance."

/-- The fixed API-failure answer of `generate_answer`. -/
def errorAnswer : String :=
  "I encountered an error while generating an answer. Please try again or contact support."

/-- The context block of `generate_answer`: per retrieved item, its
source title and first 500 characters of content, joined by blank
lines. -/
def buildContext (relevantContent : List RetrievalResult) : String :=
  String.intercalate "\n\n"
    (relevantContent.map (fun item =>
      "Source: " ++ item.title ++ "\nContent: " ++
        String.mk (item.content.data.take 500) ++ "..."))

/-- The completion prompt of `generate_answer`. -/
def buildAnswerPrompt (query topic context : String) : String :=
  "\nYou are a helpful customer support agent for Atlan, a data catalog platform. \nAnswer the user\x27s question based on the provided context from the documentation.\n\nUser Question: "
    ++ query ++ "\nTopic: " ++ topic ++
    "\n\nContext from Documentation:\n" ++ context ++
    "\n\nPlease provide a helpful, accurate answer based on the context. If the context doesn\x27t contain enough information to fully answer the question, say so and suggest contacting support.\n\nAnswer:\n"

/-- Python's `str.strip()` (no argument): drop whitespace from both
ends.  Defined over the character list so that concrete instances
reduce in the kernel. -/
def stripStr (s : String) : String :=
  String.mk
    (((s.data.dropWhile Char.isWhitespace).reverse.dropWhile
        Char.isWhitespace).reverse)

/-- `generate_answer` from `knowledge_base.py`.  `completion` is the
chat-completion oracle, applied to the built prompt; a raised API
exception is caught and folded into the fixed error answer.  A failed
or empty retrieval yields the fixed not-found answer. -/
noncomputable def generateAnswer (queryResp : Except Unit (List ℝ))
    (completion : String → Except Unit String)
    (embeddings : List (String × EmbRec)) (query topic : String) :
    AnswerResult :=
  let relevantContent := (searchRelevantContent queryResp embeddings 3).1
  if relevantContent.isEmpty then
    { answer := notFoundAnswer, sources := [] }
  else
    let context := buildContext relevantContent
    match completion (buildAnswerPrompt query topic context) with
    | Except.error _ => { answer := errorAnswer, sources := [] }
    | Except.ok text =>
      { answer := stripStr text,
        sources := relevantContent.map (fun item => item.url) }

/-! ## Concrete instantiations used in the closed example theorems -/

/-- Stand-in for stdlib `urljoin` at the concrete inputs of the
examples: an absolute href is kept, a host-relative path is appended
to the seed authority, exactly as `urljoin` does there. -/
def exUrljoin (base href : String) : String :=
  if ("https://".data).isPrefixOf href.data then href else base ++ href

/-- Stand-in for stdlib `urlparse(·).netloc` at the concrete inputs of
the examples: the authority between the `https` scheme separator and
the next slash. -/
def exNetloc (url : String) : String :=
  let cs := url.data
  let rest := if ("https://".data).isPrefixOf cs then cs.drop 8 else cs
  String.mk (rest.takeWhile (fun c => c ≠ '/'))

/-- A model response holding one well-formed JSON object surrounded by
commentary whose trailing part itself contains a `\x7d`. -/
def exResponseText : String :=
  "Sure! \x7b\"topic\": \"Product\", \"sentiment\": \"Neutral\", \"priority\": \"P1 (Medium)\", \"reasoning\": \"ok\"\x7d Hope that helps!\x7d"

/-- The single well-formed JSON object inside `exResponseText` (from
its first `\x7b` to the matching `\x7d`). -/
def exBalancedObj : String :=
  "\x7b\"topic\": \"Product\", \"sentiment\": \"Neutral\", \"priority\": \"P1 (Medium)\", \"reasoning\": \"ok\"\x7d"

/-- The fields `json.loads` would produce on `exBalancedObj`. -/
def exGoodFields : List (String × Json) :=
  [("topic", Json.str "Product"), ("sentiment", Json.str "Neutral"),
   ("priority", Json.str "P1 (Medium)"), ("reasoning", Json.str "ok")]

/-- A `json.loads` oracle consistent with the real parser on the two
strings the C3 example exercises: it succeeds exactly on the balanced
object (the greedy span, which drags in the trailing commentary, is
not valid JSON). -/
def exLoadsC3 : String → Option Json :=
  fun s => if s = exBalancedObj then some (Json.obj exGoodFields) else none

/-- A ticket record with exactly the data-model fields. -/
def exTicket : List (String × Json) :=
  [("id", Json.num 1), ("title", Json.str "Login broken"),
   ("description", Json.str "Cannot log in"),
   ("customer_email", Json.str "a@b.example"),
   ("created_at", Json.str "2024-01-01")]

/-- A `json.loads` oracle returning a schema-valid classification that
carries one extra key `id` (the validation in
`_parse_classification` only checks the three enumerated fields and
passes the parsed dict through unchanged). -/
def exLoadsC5 : String → Option Json :=
  fun _ =>
    some (Json.obj
      [("topic", Json.str "How-to"), ("sentiment", Json.str "Curious"),
       ("priority", Json.str "P2 (Low)"), ("reasoning", Json.str "r"),
       ("id", Json.num 999)])

/-- A completion oracle whose answer contains a brace-delimited span. -/
def exApiC5 : String → CompletionResult :=
  fun _ => CompletionResult.ok "\x7b\x7d"

/-- A concrete embedding record for the retrieval examples. -/
def exEmbRec : EmbRec :=
  { embedding := [(1 : ℝ)], content := "some doc content", title := "Doc" }

/-- A one-document embedding index for the retrieval examples. -/
def exIndex : List (String × EmbRec) := [("https://docs.example/a", exEmbRec)]

/-! ## Helper lemmas -/

/-- The hard-coded default classification passes all three membership
validations. -/
theorem defaultClassification_valid :
    fieldInList defaultClassification "topic" TOPIC_TAGS = true ∧
    fieldInList defaultClassification "sentiment" SENTIMENT_OPTIONS = true ∧
    fieldInList defaultClassification "priority" PRIORITY_LEVELS = true := by
  decide

/-- Whatever `_parse_classification` returns passes all three
membership validations: the non-default path is guarded by exactly
those checks. -/
theorem parseClassification_valid (loads : String → Option Json)
    (text : String) :
    fieldInList (parseClassification loads text) "topic" TOPIC_TAGS = true ∧
    fieldInList (parseClassification loads text) "sentiment" SENTIMENT_OPTIONS = true ∧
    fieldInList (parseClassification loads text) "priority" PRIORITY_LEVELS = true := by
  unfold parseClassification
  split
  · split
    · split
      · rename_i h
        simp only [Bool.and_eq_true] at h
        exact ⟨h.1.1, h.1.2, h.2⟩
      · exact defaultClassification_valid
    · exact defaultClassification_valid
    · exact defaultClassification_valid
  · exact defaultClassification_valid

/-- C1: `classify_ticket` is total and validated.  For every
`(title, description)` pair, every behaviour of the `json.loads`
oracle, and every completion-model outcome (arbitrary text, a `None`
content, or a raised exception), the returned record has a `topic` in
`TOPIC_TAGS`, a `sentiment` in `SENTIMENT_OPTIONS` and a `priority` in
`PRIORITY_LEVELS`.  Totality — never raising to the caller — is
witnessed by `classifyTicket` being a total Lean function over all
those behaviours. -/
theorem classify_ticket_total (loads : String → Option Json)
    (api : String → CompletionResult) (title description : String) :
    fieldInList (classifyTicket loads api title description) "topic"
        TOPIC_TAGS = true ∧
    fieldInList (classifyTicket loads api title description) "sentiment"
        SENTIMENT_OPTIONS = true ∧
    fieldInList (classifyTicket loads api title description) "priority"
        PRIORITY_LEVELS = true := by
  unfold classifyTicket
  cases api (createClassificationPrompt title description) with
  | ok text => exact parseClassification_valid loads text
  | okNone => exact defaultClassification_valid
  | err => exact defaultClassification_valid

/-- C2: every failure path of `classify_ticket` — a raised completion
call (or a `None` content), a response with no brace-delimited
substring, an extracted substring that `json.loads` rejects or parses
to a non-object, or a parsed object failing any of the three
membership validations — returns exactly the hard-coded default
record. -/
theorem classify_ticket_failure_default (loads : String → Option Json)
    (api : String → CompletionResult) (title description : String) :
    (api (createClassificationPrompt title description) = CompletionResult.err →
      classifyTicket loads api title description = defaultClassification) ∧
    (api (createClassificationPrompt title description) = CompletionResult.okNone →
      classifyTicket loads api title description = defaultClassification) ∧
    (∀ text,
      api (createClassificationPrompt title description) = CompletionResult.ok text →
      (extractBraces text = none →
        classifyTicket loads api title description = defaultClassification) ∧
      (∀ sub, extractBraces text = some sub →
        (loads sub = none →
          classifyTicket loads api title description = defaultClassification) ∧
        (∀ j, loads sub = some j → j.isObj = false →
          classifyTicket loads api title description = defaultClassification) ∧
        (∀ fields, loads sub = some (Json.obj fields) →
          (fieldInList fields "topic" TOPIC_TAGS &&
            fieldInList fields "sentiment" SENTIMENT_OPTIONS &&
            fieldInList fields "priority" PRIORITY_LEVELS) = false →
          classifyTicket loads api title description = defaultClassification))) := by
  refine ⟨fun h => by simp only [classifyTicket, h], fun h => by simp only [classifyTicket, h], fun text h => ?_⟩
  simp only [classifyTicket, h]
  refine ⟨fun hx => by simp only [parseClassification, hx], fun sub hx => ?_⟩
  simp only [parseClassification, hx]
  refine ⟨fun hl => by simp only [hl], fun j hl hobj => ?_, fun fields hl hc => ?_⟩
  · cases j with
    | obj fields => exact absurd hobj (by simp [Json.isObj])
    | null => simp only [hl]
    | bool b => simp only [hl]
    | num n => simp only [hl]
    | str s => simp only [hl]
    | arr l => simp only [hl]
  · simp only [hl, hc, Bool.false_eq_true, if_false]

/-- Witness for C2 at a concrete failure input: a model answer with no
brace-delimited substring yields exactly the default record. -/
theorem classify_ticket_failure_default_witness :
    classifyTicket (fun _ => none)
        (fun _ => CompletionResult.ok "The ticket is about login.") "t" "d" =
      defaultClassification := by
  exact ((classify_ticket_failure_default (fun _ => none)
    (fun _ => CompletionResult.ok "The ticket is about login.") "t" "d").2.2
    "The ticket is about login." rfl).1 (by decide)

/-- C3 counterexample: the regex `\x7b.*\x7d` is greedy, so on a response
whose trailing commentary contains a later `\x7d` the substring handed to
`json.loads` runs to that last `\x7d`, not to the brace matching the
first `\x7b`; with a loads oracle consistent with real JSON parsing, the
commentary flips the result from the parsed object to the default
record. -/
theorem extract_span_counterexample :
    extractBraces exResponseText ≠ some exBalancedObj ∧
    extractBraces exResponseText =
      some (exBalancedObj ++ " Hope that helps!\x7d") ∧
    parseClassification exLoadsC3 exResponseText = defaultClassification ∧
    parseClassification exLoadsC3
        ("Sure! " ++ exBalancedObj ++ " Hope that helps!") = exGoodFields :=
  ⟨by decide, by decide, by rfl, by rfl⟩

/-- `takeToLastClose` fails on any list without a closing brace. -/
theorem takeToLastClose_of_not_mem (ys : List Char) (h : '\x7d' ∉ ys) :
    takeToLastClose ys = none := by
  induction ys with
  | nil => rfl
  | cons c t ih =>
    have hc : c ≠ '\x7d' := fun hc => h (hc ▸ List.mem_cons_self c t)
    have ht : '\x7d' ∉ t := fun ht => h (List.mem_cons_of_mem c ht)
    simp only [takeToLastClose, ih ht, if_neg hc]

/-- A suffix with no closing brace does not move the last closing
brace. -/
theorem takeToLastClose_append_of_none (xs ys : List Char)
    (h : takeToLastClose ys = none) :
    takeToLastClose (xs ++ ys) = takeToLastClose xs := by
  induction xs with
  | nil => simpa using h
  | cons c t ih =>
    simp only [List.cons_append, takeToLastClose, List.append_eq, ih]

/-- A list ending in a closing brace is returned whole. -/
theorem takeToLastClose_concat_close (xs : List Char) :
    takeToLastClose (xs ++ ['\x7d']) = some (xs ++ ['\x7d']) := by
  induction xs with
  | nil => rfl
  | cons c t ih =>
    simp only [List.cons_append, takeToLastClose, List.append_eq, ih]

/-- `dropWhile` consumes a whole prefix all of whose elements satisfy
the predicate. -/
theorem dropWhile_append_of_forall (p : Char → Bool) (pre l : List Char)
    (h : ∀ x ∈ pre, p x = true) :
    List.dropWhile p (pre ++ l) = List.dropWhile p l := by
  induction pre with
  | nil => rfl
  | cons c t ih =>
    simp only [List.cons_append, List.dropWhile_cons,
      h c (List.mem_cons_self c t), if_true]
    exact ih (fun x hx => h x (List.mem_cons_of_mem c hx))

/-- C3 amended: the substring handed to `json.loads` spans from the
first `\x7b` of the response to the last `\x7d`.  Hence leading commentary
(free of `\x7b`) and trailing commentary free of `\x7d` do not change what
is parsed; but trailing commentary containing a `\x7d` extends the span
past the object (see the counterexample). -/
theorem extract_span_amended (pre mid post : List Char)
    (hpre : '\x7b' ∉ pre) (hpost : '\x7d' ∉ post) :
    extractJsonSpan (pre ++ ('\x7b' :: (mid ++ ['\x7d'])) ++ post) =
      some ('\x7b' :: (mid ++ ['\x7d'])) := by
  have hdrop :
      List.dropWhile (fun c => c ≠ '\x7b')
          (pre ++ ('\x7b' :: (mid ++ ['\x7d'])) ++ post) =
        '\x7b' :: ((mid ++ ['\x7d']) ++ post) := by
    rw [List.append_assoc]
    rw [dropWhile_append_of_forall _ pre _
      (fun x hx => by
        have : x ≠ '\x7b' := fun he => hpre (he ▸ hx)
        simpa using this)]
    simp [List.dropWhile_cons]
  have htake : takeToLastClose (mid ++ '\x7d' :: post) =
      some (mid ++ ['\x7d']) := by
    rw [show mid ++ '\x7d' :: post = (mid ++ ['\x7d']) ++ post from by simp]
    rw [takeToLastClose_append_of_none _ _ (takeToLastClose_of_not_mem post hpost)]
    exact takeToLastClose_concat_close mid
  unfold extractJsonSpan
  rw [hdrop]
  simp [htake]

/-- Witness for C3's amended statement at concrete commentary. -/
theorem extract_span_amended_witness :
    extractJsonSpan
        (("Answer: ").data ++ ('\x7b' :: (("\"a\": 1").data ++ ['\x7d'])) ++
          (" thanks").data) =
      some ('\x7b' :: (("\"a\": 1").data ++ ['\x7d'])) :=
  extract_span_amended (("Answer: ").data) (("\"a\": 1").data)
    ((" thanks").data) (by decide) (by decide)

/-- C4, the code evaluated at a failing input: the candidate-collection
loop filters by host and skip patterns (the foreign-host and `.pdf`
links are rejected) but never deduplicates — `visited_urls` is still
empty while it runs — so a seed page linking to the same URL twice
puts that URL twice into the candidate list, contradicting the claimed
distinctness. -/
theorem scrape_doc_links_duplicate :
    scrapeDocLinks exUrljoin exNetloc "https://seed.example"
        ["/docs/a", "https://other.example/x", "/file.pdf", "/docs/a"] 10 =
      ["https://seed.example/docs/a", "https://seed.example/docs/a"] ∧
    ¬ (["https://seed.example/docs/a",
        "https://seed.example/docs/a"] : List String).Nodup :=
  ⟨by decide, by decide⟩

/-- Lookup ignores a prefix in which the key is absent. -/
theorem dictGet_append_of_none (a b : List (String × Json)) (k : String)
    (h : dictGet a k = none) : dictGet (a ++ b) k = dictGet b k := by
  induction a with
  | nil => rfl
  | cons p t ih =>
    simp only [dictGet] at h
    by_cases hp : (p.1 == k) = true
    · rw [if_pos hp] at h; exact absurd h (by simp)
    · rw [if_neg hp] at h
      simp only [List.cons_append, dictGet, if_neg hp]
      exact ih h

/-- Lookup in a prefix is preserved by appending. -/
theorem dictGet_append_of_some (a b : List (String × Json)) (k : String)
    (v : Json) (h : dictGet a k = some v) : dictGet (a ++ b) k = some v := by
  induction a with
  | nil => exact absurd h (by simp [dictGet])
  | cons p t ih =>
    simp only [dictGet] at h
    by_cases hp : (p.1 == k) = true
    · rw [if_pos hp] at h
      simp only [List.cons_append, dictGet, if_pos hp]
      exact h
    · rw [if_neg hp] at h
      simp only [List.cons_append, dictGet, if_neg hp]
      exact ih h

/-- Lookup through a key-preserving value rewrite. -/
theorem dictGet_map_value (t : List (String × Json))
    (f : String × Json → Json) (k : String) :
    dictGet (t.map (fun p => (p.1, f p))) k =
      (t.find? (fun p => p.1 == k)).map f := by
  induction t with
  | nil => rfl
  | cons p t ih =>
    by_cases hp : (p.1 == k) = true
    · simp [dictGet, List.find?_cons, hp]
    · simp only [List.map_cons, dictGet, List.find?_cons]
      rw [if_neg hp]
      rw [show (p.1 == k) = false from by simpa using hp]
      exact ih

/-- Lookup through a filter whose predicate depends only on the key. -/
theorem dictGet_filter_key (g : String → Bool) (c : List (String × Json))
    (k : String) :
    dictGet (c.filter (fun p => g p.1)) k =
      if g k then dictGet c k else none := by
  induction c with
  | nil => simp [dictGet]
  | cons p t ih =>
    by_cases hp : (p.1 == k) = true
    · have hk : p.1 = k := by simpa using hp
      subst hk
      cases hg : g p.1 with
      | true => simp [List.filter_cons, hg, dictGet]
      | false => simp [List.filter_cons, hg, dictGet, ih]
    · have hpf : (p.1 == k) = false := by simpa using hp
      cases hg : g p.1 with
      | true => simp [List.filter_cons, hg, dictGet, hpf, ih]
      | false => simp [List.filter_cons, hg, dictGet, hpf, ih]

/-- Recursive lookup agrees with `find?`. -/
theorem dictGet_eq_find (t : List (String × Json)) (k : String) :
    dictGet t k = (t.find? (fun p => p.1 == k)).map (fun p => p.2) := by
  induction t with
  | nil => rfl
  | cons p t ih =>
    by_cases hp : (p.1 == k) = true
    · simp [dictGet, List.find?_cons, hp]
    · simp only [dictGet, List.find?_cons]
      rw [if_neg hp, show (p.1 == k) = false from by simpa using hp]
      exact ih

/-- `t.copy(); .update(c)`: a key absent from `c` keeps its `t`
value. -/
theorem dictGet_dictUpdate_of_none (t c : List (String × Json))
    (k : String) (h : dictGet c k = none) :
    dictGet (dictUpdate t c) k = dictGet t k := by
  unfold dictUpdate
  cases hf : t.find? (fun p => p.1 == k) with
  | some p =>
    have hp := List.find?_some hf
    have hk : p.1 = k := by simpa using hp
    have hmap : dictGet (t.map (fun p => (p.1, (dictGet c p.1).getD p.2))) k =
        some ((dictGet c p.1).getD p.2) := by
      rw [dictGet_map_value, hf]; rfl
    rw [dictGet_append_of_some _ _ _ _ (by rw [hmap, hk, h])]
    rw [dictGet_eq_find, hf]
    rfl
  | none =>
    have hmap : dictGet (t.map (fun p => (p.1, (dictGet c p.1).getD p.2))) k =
        none := by
      rw [dictGet_map_value, hf]; rfl
    rw [dictGet_append_of_none _ _ _ hmap]
    rw [dictGet_filter_key (fun q => (dictGet t q).isNone) c k]
    have ht : dictGet t k = none := by rw [dictGet_eq_find, hf]; rfl
    rw [ht] at *
    simp [h, ht]

/-- `t.copy(); .update(c)`: a key present in `c` gets `c`'s value. -/
theorem dictGet_dictUpdate_of_some (t c : List (String × Json))
    (k : String) (v : Json) (h : dictGet c k = some v) :
    dictGet (dictUpdate t c) k = some v := by
  unfold dictUpdate
  cases hf : t.find? (fun p => p.1 == k) with
  | some p =>
    have hp := List.find?_some hf
    have hk : p.1 = k := by simpa using hp
    have hmap : dictGet (t.map (fun p => (p.1, (dictGet c p.1).getD p.2))) k =
        some ((dictGet c p.1).getD p.2) := by
      rw [dictGet_map_value, hf]; rfl
    rw [dictGet_append_of_some _ _ _ _ (by rw [hmap, hk, h])]
    rfl
  | none =>
    have hmap : dictGet (t.map (fun p => (p.1, (dictGet c p.1).getD p.2))) k =
        none := by
      rw [dictGet_map_value, hf]; rfl
    rw [dictGet_append_of_none _ _ _ hmap]
    rw [dictGet_filter_key (fun q => (dictGet t q).isNone) c k]
    have ht : dictGet t k = none := by rw [dictGet_eq_find, hf]; rfl
    simp [ht, h]

/-- C5 counterexample: the validation of `_parse_classification`
checks only the three enumerated fields and passes the parsed dict
through unchanged, so a schema-valid model response carrying an extra
`id` key overwrites the original ticket's `id` during
`classified_ticket.update(classification)` — the output record does
not contain all key-value pairs of the original ticket. -/
theorem classify_bulk_counterexample :
    dictGet exTicket "id" = some (Json.num 1) ∧
    ((classifyBulkTickets exLoadsC5 exApiC5 [exTicket]).head?.map
      (fun d => dictGet d "id")) = some (some (Json.num 999)) ∧
    some (Json.num 999) ≠ some (Json.num 1) :=
  ⟨by rfl, by rfl, by simp⟩

/-- C5 amended: `classify_bulk_tickets` returns one record per input
ticket, in input order; each output record is the classification
merged onto a copy of the original ticket (so the input records are
never written to); every ticket pair whose key the classification does
not carry is retained with its original value, and every
classification field appears with the classification's value.  (The
original claim fails only when the parsed classification carries a key
that the ticket also has — see the counterexample.) -/
theorem classify_bulk_amended (loads : String → Option Json)
    (api : String → CompletionResult)
    (tickets : List (List (String × Json))) :
    (classifyBulkTickets loads api tickets).length = tickets.length ∧
    (∀ i : Nat, (classifyBulkTickets loads api tickets)[i]? =
      (tickets[i]?).map (fun t =>
        dictUpdate t (classifyTicket loads api (ticketField t "title")
          (ticketField t "description")))) ∧
    (∀ t k,
      dictGet (classifyTicket loads api (ticketField t "title")
        (ticketField t "description")) k = none →
      dictGet (dictUpdate t (classifyTicket loads api (ticketField t "title")
        (ticketField t "description"))) k = dictGet t k) ∧
    (∀ t k v,
      dictGet (classifyTicket loads api (ticketField t "title")
        (ticketField t "description")) k = some v →
      dictGet (dictUpdate t (classifyTicket loads api (ticketField t "title")
        (ticketField t "description"))) k = some v) := by
  refine ⟨by simp [classifyBulkTickets], fun i => ?_,
    fun t k h => dictGet_dictUpdate_of_none _ _ _ h,
    fun t k v h => dictGet_dictUpdate_of_some _ _ _ _ h⟩
  simp [classifyBulkTickets]

/-- Witness for C5's amended statement at a concrete ticket whose
classification (the default, after an API failure) carries no `id`
key: the original `id` survives the merge, and the bulk output has one
record for the one input. -/
theorem classify_bulk_amended_witness :
    (classifyBulkTickets (fun _ => none) (fun _ => CompletionResult.err)
      [exTicket]).length = 1 ∧
    dictGet (dictUpdate exTicket
        (classifyTicket (fun _ => none) (fun _ => CompletionResult.err)
          (ticketField exTicket "title")
          (ticketField exTicket "description"))) "id" = some (Json.num 1) := by
  have h := classify_bulk_amended (fun _ => none)
    (fun _ => CompletionResult.err) [exTicket]
  refine ⟨h.1, ?_⟩
  have h2 := h.2.2.1 exTicket "id" (by rfl)
  rw [h2]
  rfl

/-- C6: for every indexed document set and every query embedding, the
search returns at most `top_k` results, sorted by similarity
descending; and the returned results together with the left-over rest
are a permutation of all per-document similarity records, with every
left-over similarity bounded by every returned one — i.e. the result
is a top-`top_k` selection (ties broken implementation-defined, as the
spec allows). -/
theorem search_top_k_ranking (q : List ℝ) (embs : List (String × EmbRec))
    (topK : Nat) :
    ((searchRelevantContent (Except.ok q) embs topK).1.length ≤ topK) ∧
    ((searchRelevantContent (Except.ok q) embs topK).1.Pairwise simGe) ∧
    (∃ rest,
      ((searchRelevantContent (Except.ok q) embs topK).1 ++ rest).Perm
        (simResults q embs) ∧
      ∀ a ∈ (searchRelevantContent (Except.ok q) embs topK).1,
        ∀ b ∈ rest, b.similarity ≤ a.similarity) := by
  cases hemb : embs.isEmpty with
  | true =>
    have he : embs = [] := by simpa using hemb
    subst he
    refine ⟨by simp [searchRelevantContent], by simp [searchRelevantContent],
      [], ?_, ?_⟩
    · simp [searchRelevantContent, simResults]
    · simp [searchRelevantContent]
  | false =>
    have hres : (searchRelevantContent (Except.ok q) embs topK).1 =
        (List.insertionSort simGe (simResults q embs)).take topK := by
      simp [searchRelevantContent, hemb]
    have hsorted : (List.insertionSort simGe (simResults q embs)).Pairwise simGe :=
      List.sorted_insertionSort simGe (simResults q embs)
    refine ⟨?_, ?_, (List.insertionSort simGe (simResults q embs)).drop topK,
      ?_, ?_⟩
    · rw [hres]
      simp only [List.length_take]
      exact min_le_left topK (List.insertionSort simGe (simResults q embs)).length
    · rw [hres]
      exact List.Pairwise.sublist (List.take_sublist _ _) hsorted
    · rw [hres, List.take_append_drop]
      exact List.perm_insertionSort simGe (simResults q embs)
    · intro a ha b hb
      rw [hres] at ha
      have hcross := (List.pairwise_append.mp
        (by rw [List.take_append_drop]
            exact hsorted :
          ((List.insertionSort simGe (simResults q embs)).take topK ++
            (List.insertionSort simGe (simResults q embs)).drop topK).Pairwise
            simGe)).2.2
      exact hcross a ha b hb

/-- Witness for C6 at the concrete one-document index: the search
returns at most two results and they are sorted. -/
theorem search_top_k_ranking_witness :
    ((searchRelevantContent (Except.ok [(1 : ℝ)]) exIndex 2).1.length ≤ 2) ∧
    ((searchRelevantContent (Except.ok [(1 : ℝ)]) exIndex 2).1.Pairwise simGe) :=
  ⟨(search_top_k_ranking [(1 : ℝ)] exIndex 2).1,
    (search_top_k_ranking [(1 : ℝ)] exIndex 2).2.1⟩

/-- The dot product of a vector with itself is a sum of squares. -/
theorem dotProd_self_nonneg (v : List ℝ) : 0 ≤ dotProd v v := by
  induction v with
  | nil => simp [dotProd]
  | cons x t ih =>
    simp only [dotProd, List.zipWith_cons_cons, List.sum_cons] at *
    exact add_nonneg (mul_self_nonneg x) ih

/-- A vector of zeros has zero dot product with itself. -/
theorem dotProd_self_eq_zero (v : List ℝ) (h : ∀ x ∈ v, x = 0) :
    dotProd v v = 0 := by
  induction v with
  | nil => simp [dotProd]
  | cons x t ih =>
    have hx : x = 0 := h x (List.mem_cons_self x t)
    have ht : ∀ y ∈ t, y = 0 := fun y hy => h y (List.mem_cons_of_mem x hy)
    simp only [dotProd, List.zipWith_cons_cons, List.sum_cons] at *
    rw [hx, ih ht]
    ring

/-- C7: `_cosine_similarity` equals `dot / (norm * norm)` whenever both
norms are nonzero and is `0` whenever a norm is zero; consequently
orthogonal vectors give `0`, a vector of nonzero norm with itself
gives `1`, and any pair involving an all-zero vector gives `0` (no
division-by-zero: the function is total). -/
theorem cosine_similarity_spec (v w : List ℝ) :
    (dotProd v w = 0 → cosineSimilarity v w = 0) ∧
    (norm2 v ≠ 0 → cosineSimilarity v v = 1) ∧
    ((∀ x ∈ v, x = 0) →
      cosineSimilarity v w = 0 ∧ cosineSimilarity w v = 0) ∧
    (norm2 v ≠ 0 → norm2 w ≠ 0 →
      cosineSimilarity v w = dotProd v w / (norm2 v * norm2 w)) := by
  refine ⟨?_, ?_, ?_, ?_⟩
  · intro ht
    simp [cosineSimilarity, ht]
  · intro hv
    have hd : 0 ≤ dotProd v v := dotProd_self_nonneg v
    have hmul : norm2 v * norm2 v = dotProd v v := Real.mul_self_sqrt hd
    have hdne : dotProd v v ≠ 0 := by
      intro h0
      exact hv (by simp [norm2, h0])
    simp only [cosineSimilarity, hv, or_self, if_false]
    rw [hmul]
    exact div_self hdne
  · intro hz
    have hn : norm2 v = 0 := by
      simp [norm2, dotProd_self_eq_zero v hz]
    constructor
    · simp [cosineSimilarity, hn]
    · simp [cosineSimilarity, hn]
  · intro h1 h2
    simp [cosineSimilarity, h1, h2]

/-- Witness for C7 at concrete vectors: orthogonal pair, self pair of
nonzero norm, and a zero vector paired with a nonzero one. -/
theorem cosine_similarity_spec_witness :
    cosineSimilarity [(1 : ℝ), 0] [0, 1] = 0 ∧
    cosineSimilarity [(3 : ℝ), 4] [3, 4] = 1 ∧
    cosineSimilarity [(0 : ℝ), 0] [5, 7] = 0 := by
  refine ⟨(cosine_similarity_spec [(1 : ℝ), 0] [0, 1]).1 ?_,
    (cosine_similarity_spec [(3 : ℝ), 4] [3, 4]).2.1 ?_,
    ((cosine_similarity_spec [(0 : ℝ), 0] [5, 7]).2.2.1 ?_).1⟩
  · norm_num [dotProd]
  · have hd : dotProd [(3 : ℝ), 4] [3, 4] = 25 := by norm_num [dotProd]
    simp only [norm2, hd]
    exact ne_of_gt (Real.sqrt_pos.mpr (by norm_num))
  · intro x hx
    simpa using hx

/-- C8: on an empty index, `search_relevant_content` returns the empty
list and performs zero embedding-API calls (the second component
counts the provider invocations), whatever the query oracle would have
answered. -/
theorem search_empty_index (queryResp : Except Unit (List ℝ))
    (topK : Nat) : searchRelevantContent queryResp [] topK = ([], 0) :=
  rfl

/-- C9: `generate_answer` never propagates an error: an empty
retrieval yields the fixed not-found apology with no sources, a
failing completion call yields the fixed error answer with no sources,
and a successful completion yields the stripped model text with
sources exactly the URLs of the retrieved results in ranking order. -/
theorem generate_answer_spec (queryResp : Except Unit (List ℝ))
    (completion : String → Except Unit String)
    (embs : List (String × EmbRec)) (query topic : String) :
    ((searchRelevantContent queryResp embs 3).1 = [] →
      generateAnswer queryResp completion embs query topic =
        ⟨notFoundAnswer, []⟩) ∧
    ((searchRelevantContent queryResp embs 3).1 ≠ [] →
      (completion (buildAnswerPrompt query topic
          (buildContext (searchRelevantContent queryResp embs 3).1)) =
            Except.error () →
        generateAnswer queryResp completion embs query topic =
          ⟨errorAnswer, []⟩) ∧
      (∀ text,
        completion (buildAnswerPrompt query topic
          (buildContext (searchRelevantContent queryResp embs 3).1)) =
            Except.ok text →
        generateAnswer queryResp completion embs query topic =
          ⟨stripStr text,
            (searchRelevantContent queryResp embs 3).1.map
              (fun item => item.url)⟩)) := by
  constructor
  · intro h
    simp [generateAnswer, h]
  · intro h
    have hne : (searchRelevantContent queryResp embs 3).1.isEmpty = false := by
      simpa using h
    constructor
    · intro hc
      simp [generateAnswer, hne, hc]
    · intro text hc
      simp [generateAnswer, hne, hc]

/-- Witness for C9: a one-document index with a successful completion
returns the stripped text and the document URL; an empty index returns
the fixed not-found answer. -/
theorem generate_answer_spec_witness :
    generateAnswer (Except.ok [(1 : ℝ)]) (fun _ => Except.ok " an answer ")
        exIndex "q" "t" = ⟨"an answer", ["https://docs.example/a"]⟩ ∧
    generateAnswer (Except.ok [(1 : ℝ)]) (fun _ => Except.ok " an answer ")
        [] "q" "t" = ⟨notFoundAnswer, []⟩ := by
  have h1 := generate_answer_spec (Except.ok [(1 : ℝ)])
    (fun _ => Except.ok " an answer ") exIndex "q" "t"
  have h2 := generate_answer_spec (Except.ok [(1 : ℝ)])
    (fun _ => Except.ok " an answer ") [] "q" "t"
  constructor
  · have hrel : (searchRelevantContent (Except.ok [(1 : ℝ)]) exIndex 3).1 =
        [{ url := "https://docs.example/a", title := "Doc",
           content := "some doc content",
           similarity := cosineSimilarity [(1 : ℝ)] [(1 : ℝ)] }] := by
      simp [searchRelevantContent, simResults, exIndex, exEmbRec,
        List.insertionSort, List.orderedInsert]
    have hok := (h1.2 (by rw [hrel]; simp)).2 " an answer " rfl
    rw [hok, hrel]
    rfl
  · exact h2.1 rfl

/-- C10: a raised query-embedding call is caught inside
`search_relevant_content`, which returns the empty list (after its one
attempted API call) — the index, a read-only input of the pure
embedding, is untouched; consequently `generate_answer` over a
non-empty index whose query-embedding call fails returns the
not-found answer with no sources, not the error answer. -/
theorem search_error_returns_empty (embs : List (String × EmbRec))
    (completion : String → Except Unit String) (query topic : String)
    (topK : Nat) (h : embs ≠ []) :
    searchRelevantContent (Except.error ()) embs topK = ([], 1) ∧
    generateAnswer (Except.error ()) completion embs query topic =
      ⟨notFoundAnswer, []⟩ := by
  have hne : embs.isEmpty = false := by simpa using h
  constructor
  · simp [searchRelevantContent, hne]
  · simp [generateAnswer, searchRelevantContent, hne]

/-- Witness for C10 at the concrete one-document index. -/
theorem search_error_returns_empty_witness :
    searchRelevantContent (Except.error ()) exIndex 3 = ([], 1) ∧
    generateAnswer (Except.error ()) (fun _ => Except.ok "irrelevant")
        exIndex "q" "t" = ⟨notFoundAnswer, []⟩ :=
  search_error_returns_empty exIndex (fun _ => Except.ok "irrelevant")
    "q" "t" 3 (by simp [exIndex])
